import Mathlib

/-
  Shallow embedding of the voidproxy forwarding core (src/config.rs,
  src/instance.rs, src/instance_manager.rs, src/buffer_pool.rs,
  src/ip_cache.rs, src/metrics.rs, src/udp_proxy.rs, src/tcp_proxy.rs)
  and proofs about the behaviour of its operations.

  Machine integers are modelled as Nat (ports are u16 values, timeouts u64,
  counters u32/u64); overflow never matters for the statements below except
  for the saturating metric adds, which are modelled explicitly.
  Wall-clock instants are modelled as Nat time stamps passed explicitly.
  Fallible Rust functions returning anyhow::Result are modelled as
  Except String.
-/

namespace VoidProxy

/-- Model of std::net::IpAddr: a V4 address with four octets or a V6 address
with its segment list.  Equality is structural, as in Rust. -/
inductive IpAddr where
  | v4 (a b c d : Nat)
  | v6 (segs : List Nat)
deriving DecidableEq, Repr

/-- IpAddr::is_loopback: 127.0.0.0/8 for V4, ::1 for V6. -/
def IpAddr.is_loopback : IpAddr → Bool
  | .v4 a _ _ _ => a == 127
  | .v6 segs => segs == [0, 0, 0, 0, 0, 0, 0, 1]

/-- Protocol from src/config.rs. -/
inductive Protocol where
  | Tcp
  | Udp
  | Both
deriving DecidableEq, Repr

/-- LogLevel as used by src/instance.rs (error/warn/info/debug/trace). -/
inductive LogLevel where
  | Error
  | Warn
  | Info
  | Debug
  | Trace
deriving DecidableEq, Repr

/-- ProxyConfig from src/config.rs, with the timeout and log-level fields its
callers in src/instance.rs construct and patch. -/
structure ProxyConfig where
  listen_ip : IpAddr
  listen_port : Nat
  dst_ip : IpAddr
  dst_port : Nat
  protocol : Protocol
  connect_timeout_secs : Nat
  idle_timeout_secs : Nat
  log_level : LogLevel
deriving DecidableEq, Repr

/-- IpFilterConfig from src/config.rs. -/
structure IpFilterConfig where
  allow_list : Option (List IpAddr)
  deny_list : Option (List IpAddr)
deriving DecidableEq, Repr

/-- Config from src/config.rs. -/
structure Config where
  proxy : ProxyConfig
  ip_filter : Option IpFilterConfig
deriving DecidableEq, Repr

/-- The duplicate scan of Config::validate: it walks the list inserting into a
set and fails at the first element seen twice; as a boolean this is exactly
"some element occurs later in the list again". -/
def hasDuplicate : List IpAddr → Bool
  | [] => false
  | x :: xs => xs.contains x || hasDuplicate xs

/-- The allow-list checks of Config::validate (emptiness, then duplicates). -/
def validateAllow (f : IpFilterConfig) : Except String Unit :=
  match f.allow_list with
  | none => .ok ()
  | some l =>
    if l.isEmpty then .error "Allow list cannot be empty"
    else if hasDuplicate l then .error "Duplicate IP address in allow list"
    else .ok ()

/-- The deny-list checks of Config::validate (emptiness, then duplicates). -/
def validateDeny (f : IpFilterConfig) : Except String Unit :=
  match f.deny_list with
  | none => .ok ()
  | some l =>
    if l.isEmpty then .error "Deny list cannot be empty"
    else if hasDuplicate l then .error "Duplicate IP address in deny list"
    else .ok ()

/-- The ip_filter block of Config::validate (lines 88-126): allow-list
checks, then deny-list checks, then the both-lists check. -/
def validateFilter (of : Option IpFilterConfig) : Except String Unit :=
  match of with
  | none => .ok ()
  | some f =>
    match validateAllow f with
    | .error e => .error e
    | .ok _ =>
      match validateDeny f with
      | .error e => .error e
      | .ok _ =>
        if f.allow_list.isSome && f.deny_list.isSome then
          .error "Cannot specify both allow_list and deny_list"
        else
          .ok ()

/-- Config::validate from src/config.rs lines 57-129.  The checks run in
source order: listen port zero, destination port zero, listen/destination
collision, then the ip_filter checks.  The loopback comparison at lines 80-86
only emits a warning and is therefore a no-op here.  Note the source performs
no check on connect_timeout_secs, idle_timeout_secs or log_level. -/
def Config.validate (c : Config) : Except String Unit :=
  if c.proxy.listen_port == 0 then
    .error "Listen port cannot be 0"
  else if c.proxy.dst_port == 0 then
    .error "Destination port cannot be 0"
  else if c.proxy.listen_port == c.proxy.dst_port && c.proxy.listen_ip == c.proxy.dst_ip then
    .error "Listen and destination cannot be the same address and port"
  else
    validateFilter c.ip_filter

/-- Config::is_ip_allowed from src/config.rs lines 131-144. -/
def Config.is_ip_allowed (c : Config) (ip : IpAddr) : Bool :=
  match c.ip_filter with
  | some filter =>
    match filter.allow_list with
    | some allow => allow.contains ip
    | none =>
      match filter.deny_list with
      | some deny => !deny.contains ip
      | none => true
  | none => true

/-- Boolean success test for the Except values the embedding returns. -/
def isOkE {ε α : Type} : Except ε α → Bool
  | .ok _ => true
  | .error _ => false

theorem hasDuplicate_iff_not_nodup (l : List IpAddr) :
    hasDuplicate l = true ↔ ¬ l.Nodup := by
  induction l with
  | nil => simp [hasDuplicate]
  | cons x xs ih =>
    simp [hasDuplicate, List.nodup_cons, ih, List.contains, List.elem_iff]
    tauto

/-- The structural conditions Config::validate actually checks: a zero port,
listen equal to destination, an ip-filter list that is empty or has
duplicates, or both lists present. -/
def violatesStructuralRule (c : Config) : Prop :=
  c.proxy.listen_port = 0 ∨ c.proxy.dst_port = 0 ∨
  (c.proxy.listen_port = c.proxy.dst_port ∧ c.proxy.listen_ip = c.proxy.dst_ip) ∨
  (∃ f, c.ip_filter = some f ∧
    ((∃ l, f.allow_list = some l ∧ (l = [] ∨ ¬ l.Nodup)) ∨
     (∃ l, f.deny_list = some l ∧ (l = [] ∨ ¬ l.Nodup)) ∨
     (f.allow_list.isSome = true ∧ f.deny_list.isSome = true)))

theorem listChecks_isOk_false_iff (l : List IpAddr) (e1 e2 : String) :
    isOkE (if l.isEmpty then Except.error e1
           else if hasDuplicate l then Except.error e2
           else (Except.ok () : Except String Unit)) = false ↔
      (l = [] ∨ ¬ l.Nodup) := by
  split_ifs with h1 h2
  · simp [isOkE, List.isEmpty_iff.mp h1]
  · simp [isOkE, (hasDuplicate_iff_not_nodup l).mp h2]
  · constructor
    · intro hcontr
      exact absurd hcontr (by simp [isOkE])
    · rintro (he | hd)
      · exact absurd (by simp [he] : l.isEmpty = true) h1
      · exact absurd ((hasDuplicate_iff_not_nodup l).mpr hd) h2

theorem validateAllow_isOk_false_iff (f : IpFilterConfig) :
    isOkE (validateAllow f) = false ↔
      ∃ l, f.allow_list = some l ∧ (l = [] ∨ ¬ l.Nodup) := by
  cases h : f.allow_list with
  | none => simp [validateAllow, h, isOkE]
  | some l =>
    have hrw : validateAllow f =
        (if l.isEmpty then Except.error "Allow list cannot be empty"
         else if hasDuplicate l then Except.error "Duplicate IP address in allow list"
         else Except.ok ()) := by
      simp [validateAllow, h]
    rw [hrw, listChecks_isOk_false_iff]
    constructor
    · intro hb
      exact ⟨l, rfl, hb⟩
    · rintro ⟨l', hl', hb⟩
      injection hl' with hll
      exact hll ▸ hb

theorem validateDeny_isOk_false_iff (f : IpFilterConfig) :
    isOkE (validateDeny f) = false ↔
      ∃ l, f.deny_list = some l ∧ (l = [] ∨ ¬ l.Nodup) := by
  cases h : f.deny_list with
  | none => simp [validateDeny, h, isOkE]
  | some l =>
    have hrw : validateDeny f =
        (if l.isEmpty then Except.error "Deny list cannot be empty"
         else if hasDuplicate l then Except.error "Duplicate IP address in deny list"
         else Except.ok ()) := by
      simp [validateDeny, h]
    rw [hrw, listChecks_isOk_false_iff]
    constructor
    · intro hb
      exact ⟨l, rfl, hb⟩
    · rintro ⟨l', hl', hb⟩
      injection hl' with hll
      exact hll ▸ hb

theorem validateFilter_some_okok (f : IpFilterConfig) (u v : Unit)
    (hAe : validateAllow f = .ok u) (hDe : validateDeny f = .ok v) :
    validateFilter (some f) =
      if f.allow_list.isSome && f.deny_list.isSome then
        .error "Cannot specify both allow_list and deny_list"
      else
        .ok () := by
  simp only [validateFilter]
  rw [hAe, hDe]

theorem validateFilter_isOk_false_iff (of : Option IpFilterConfig) :
    isOkE (validateFilter of) = false ↔
      ∃ f, of = some f ∧
        ((∃ l, f.allow_list = some l ∧ (l = [] ∨ ¬ l.Nodup)) ∨
         (∃ l, f.deny_list = some l ∧ (l = [] ∨ ¬ l.Nodup)) ∨
         (f.allow_list.isSome = true ∧ f.deny_list.isSome = true)) := by
  cases hof : of with
  | none => simp [validateFilter, isOkE]
  | some f =>
    have hA := validateAllow_isOk_false_iff f
    have hD := validateDeny_isOk_false_iff f
    cases hAe : validateAllow f with
    | error e =>
      have : isOkE (validateFilter (some f)) = false := by
        simp [validateFilter, hAe, isOkE]
      rw [this]
      simp only [Option.some.injEq, true_iff]
      refine ⟨f, rfl, Or.inl ?_⟩
      exact hA.mp (by simp [isOkE, hAe])
    | ok u =>
      cases hDe : validateDeny f with
      | error e =>
        have : isOkE (validateFilter (some f)) = false := by
          simp [validateFilter, hAe, hDe, isOkE]
        rw [this]
        simp only [Option.some.injEq, true_iff]
        refine ⟨f, rfl, Or.inr (Or.inl ?_)⟩
        exact hD.mp (by simp [isOkE, hDe])
      | ok v =>
        have hAok : ¬ ∃ l, f.allow_list = some l ∧ (l = [] ∨ ¬ l.Nodup) := by
          rw [← hA]
          simp [isOkE, hAe]
        have hDok : ¬ ∃ l, f.deny_list = some l ∧ (l = [] ∨ ¬ l.Nodup) := by
          rw [← hD]
          simp [isOkE, hDe]
        by_cases hboth : (f.allow_list.isSome && f.deny_list.isSome) = true
        · have : isOkE (validateFilter (some f)) = false := by
            rw [validateFilter_some_okok f u v hAe hDe, if_pos hboth]
            rfl
          rw [this]
          simp only [Option.some.injEq, true_iff]
          refine ⟨f, rfl, Or.inr (Or.inr ?_)⟩
          simpa using hboth
        · have : isOkE (validateFilter (some f)) = true := by
            rw [validateFilter_some_okok f u v hAe hDe, if_neg hboth]
            rfl
          rw [this]
          constructor
          · intro hcontr
            cases hcontr
          · rintro ⟨f', hf', hbad⟩
            injection hf' with hff
            subst hff
            rcases hbad with hb | hb | hb
            · exact absurd hb hAok
            · exact absurd hb hDok
            · exact absurd (by simp [hb.1, hb.2]) hboth

theorem validate_isOk_false_iff (c : Config) :
    isOkE c.validate = false ↔ violatesStructuralRule c := by
  unfold Config.validate violatesStructuralRule
  split_ifs with h1 h2 h3
  · simp [isOkE]
    exact Or.inl (by simpa using h1)
  · simp [isOkE]
    exact Or.inr (Or.inl (by simpa using h2))
  · simp [isOkE]
    refine Or.inr (Or.inr (Or.inl ?_))
    simpa using h3
  · have h1' : ¬ c.proxy.listen_port = 0 := by simpa using h1
    have h2' : ¬ c.proxy.dst_port = 0 := by simpa using h2
    have h3' : ¬ (c.proxy.listen_port = c.proxy.dst_port ∧ c.proxy.listen_ip = c.proxy.dst_ip) := by
      intro hc
      exact h3 (by simp [hc.1, hc.2])
    rw [validateFilter_isOk_false_iff]
    constructor
    · intro hv
      exact Or.inr (Or.inr (Or.inr hv))
    · rintro (hv | hv | hv | hv)
      · exact absurd hv h1'
      · exact absurd hv h2'
      · exact absurd hv h3'
      · exact hv

/-- Demonstration config whose connect_timeout and idle_timeout lie outside
the canonical ranges but which Config::validate nevertheless accepts. -/
def cfgBadTimeout : Config :=
  { proxy :=
      { listen_ip := .v4 127 0 0 1, listen_port := 8080,
        dst_ip := .v4 192 168 1 100, dst_port := 80,
        protocol := .Tcp, connect_timeout_secs := 0,
        idle_timeout_secs := 5000, log_level := .Info },
    ip_filter := none }

/-- C3 counterexample: a configuration whose connect_timeout is outside
[1,300] and whose idle_timeout is outside [1,3600], yet Config::validate
returns Ok — the source performs no timeout or log-level checks, so the
claimed "if and only if" fails. -/
theorem validate_accepts_bad_timeouts :
    ¬ (1 ≤ cfgBadTimeout.proxy.connect_timeout_secs ∧
        cfgBadTimeout.proxy.connect_timeout_secs ≤ 300) ∧
    ¬ (1 ≤ cfgBadTimeout.proxy.idle_timeout_secs ∧
        cfgBadTimeout.proxy.idle_timeout_secs ≤ 3600) ∧
    Config.validate cfgBadTimeout = .ok () := by
  refine ⟨by decide, by decide, by rfl⟩

/-- C3 (amended): Config::validate rejects a configuration exactly when a
structural rule is violated — a port is 0, listen equals destination, an
allow-list or deny-list is empty or has duplicates, or both lists are
present.  It performs no check on connect_timeout, idle_timeout or the log
level. -/
theorem validate_ok_iff_structural (c : Config) :
    isOkE c.validate = true ↔ ¬ violatesStructuralRule c := by
  rw [← validate_isOk_false_iff]
  cases hv : isOkE c.validate <;> simp

/-- Helper: a valid configuration never carries both an allow-list and a
deny-list. -/
theorem validate_ok_not_both (c : Config) (f : IpFilterConfig)
    (h : isOkE c.validate = true) (hf : c.ip_filter = some f) :
    ¬ (f.allow_list.isSome = true ∧ f.deny_list.isSome = true) := by
  intro hboth
  have hviol : violatesStructuralRule c :=
    Or.inr (Or.inr (Or.inr ⟨f, hf, Or.inr (Or.inr hboth)⟩))
  have hfalse := (validate_isOk_false_iff c).mpr hviol
  rw [h] at hfalse
  cases hfalse

/-- C6: for every valid configuration, Config::is_ip_allowed implements the
filter exactly — with an allow-list the IP is admitted iff it is a member,
with a deny-list the IP is admitted iff it is not a member, and with no
filter configured every IP is admitted. -/
theorem is_ip_allowed_filter_correct (c : Config) (h : isOkE c.validate = true) (ip : IpAddr) :
    (∀ f l, c.ip_filter = some f → f.allow_list = some l →
      (c.is_ip_allowed ip = true ↔ ip ∈ l)) ∧
    (∀ f l, c.ip_filter = some f → f.deny_list = some l →
      (c.is_ip_allowed ip = true ↔ ip ∉ l)) ∧
    (c.ip_filter = none → c.is_ip_allowed ip = true) := by
  refine ⟨?_, ?_, ?_⟩
  · intro f l hf hl
    simp [Config.is_ip_allowed, hf, hl, List.contains, List.elem_iff]
  · intro f l hf hl
    have hnb := validate_ok_not_both c f h hf
    cases hA : f.allow_list with
    | some la => exact absurd ⟨by simp [hA], by simp [hl]⟩ hnb
    | none =>
      simp [Config.is_ip_allowed, hf, hA, hl, List.contains, List.elem_iff]
  · intro hf
    simp [Config.is_ip_allowed, hf]

/-- Demonstration configs for the C6 witness: one allow-list filter, one
deny-list filter, one with no filter. -/
def cfgAllow : Config :=
  { proxy :=
      { listen_ip := .v4 127 0 0 1, listen_port := 8080,
        dst_ip := .v4 192 168 1 100, dst_port := 80,
        protocol := .Tcp, connect_timeout_secs := 30,
        idle_timeout_secs := 300, log_level := .Info },
    ip_filter := some { allow_list := some [.v4 192 168 1 10, .v4 192 168 1 20],
                        deny_list := none } }

/-- Witness for C6: the allow-list clause of the theorem applied to a
concrete valid configuration admits a listed IP and rejects an unlisted
one. -/
theorem is_ip_allowed_filter_correct_witness :
    cfgAllow.is_ip_allowed (.v4 192 168 1 10) = true ∧
    cfgAllow.is_ip_allowed (.v4 192 168 1 30) = false := by
  have h10 := (is_ip_allowed_filter_correct cfgAllow (by decide) (.v4 192 168 1 10)).1
  have h30 := (is_ip_allowed_filter_correct cfgAllow (by decide) (.v4 192 168 1 30)).1
  constructor
  · exact (h10 _ _ rfl rfl).mpr (by decide)
  · have := (h30 _ _ rfl rfl)
    cases hb : cfgAllow.is_ip_allowed (.v4 192 168 1 30) with
    | true => exact absurd (this.mp hb) (by decide)
    | false => rfl

/-! ### Metrics (src/metrics.rs) -/

/-- A snapshot of the five atomic counters of InstanceMetrics, as loaded at
the top of get_stats. -/
structure CountersSnapshot where
  bytes_sent : Nat
  bytes_received : Nat
  connections_active : Nat
  connections_total : Nat
  errors : Nat
deriving DecidableEq, Repr

/-- InstanceStats from src/metrics.rs.  The f64 rate fields are modelled as
exact rationals. -/
structure InstanceStats where
  bytes_sent : Nat
  bytes_received : Nat
  connections_active : Nat
  connections_total : Nat
  errors : Nat
  bytes_sent_per_sec : ℚ
  bytes_received_per_sec : ℚ
  error_rate : ℚ
deriving DecidableEq, Repr

/-- InstanceMetrics::get_stats from src/metrics.rs lines 64-95.
nowMinusStarted models Utc::now().signed_duration_since(started).num_seconds()
when started_at is Some, and is none when started_at is None. -/
def InstanceMetrics.get_stats (m : CountersSnapshot) (nowMinusStarted : Option Int) :
    InstanceStats :=
  let rates : ℚ × ℚ :=
    match nowMinusStarted with
    | some d =>
      let seconds : ℚ := ((max d 1 : Int) : ℚ)
      ((m.bytes_sent : ℚ) / seconds, (m.bytes_received : ℚ) / seconds)
    | none => (0, 0)
  let error_rate : ℚ :=
    if m.connections_total > 0 then
      (m.errors : ℚ) / (m.connections_total : ℚ)
    else
      0
  { bytes_sent := m.bytes_sent
    bytes_received := m.bytes_received
    connections_active := m.connections_active
    connections_total := m.connections_total
    errors := m.errors
    bytes_sent_per_sec := rates.1
    bytes_received_per_sec := rates.2
    error_rate := error_rate }

/-- Counter snapshot with one recorded error and no completed connection. -/
def snapErrNoConn : CountersSnapshot :=
  { bytes_sent := 0, bytes_received := 0, connections_active := 0,
    connections_total := 0, errors := 1 }

/-- C5 counterexample: with errors = 1 and connections_total = 0 the source
reports an error ratio of 0, whereas errors / max(1, connections_total)
equals 1, so the claimed formula fails when connections_total = 0 and
errors > 0. -/
theorem error_rate_zero_total_counterexample :
    (InstanceMetrics.get_stats snapErrNoConn none).error_rate = 0 ∧
    ((snapErrNoConn.errors : ℚ) / ((max 1 snapErrNoConn.connections_total : Nat) : ℚ)) = 1 ∧
    ((0 : ℚ) ≠ 1) := by
  refine ⟨by norm_num [InstanceMetrics.get_stats, snapErrNoConn], ?_, by norm_num⟩
  norm_num [snapErrNoConn]

/-- C5 (amended): get_stats reports error_rate = errors / connections_total
when connections_total > 0 (which coincides with errors/max(1,total) there),
and reports 0 — not errors/1 — when connections_total = 0. -/
theorem error_rate_formula (m : CountersSnapshot) (d : Option Int) :
    (0 < m.connections_total →
      (InstanceMetrics.get_stats m d).error_rate =
        (m.errors : ℚ) / ((max 1 m.connections_total : Nat) : ℚ)) ∧
    (m.connections_total = 0 → (InstanceMetrics.get_stats m d).error_rate = 0) := by
  constructor
  · intro h
    have hmax : max 1 m.connections_total = m.connections_total := by omega
    simp [InstanceMetrics.get_stats, h, hmax]
  · intro h
    simp [InstanceMetrics.get_stats, h]

/-- Counter snapshot with two errors over four connections. -/
def snapTwoFour : CountersSnapshot :=
  { bytes_sent := 0, bytes_received := 0, connections_active := 0,
    connections_total := 4, errors := 2 }

/-- Witness for C5 (amended) at a concrete snapshot. -/
theorem error_rate_formula_witness :
    (InstanceMetrics.get_stats snapTwoFour none).error_rate = (2 : ℚ) / 4 := by
  have h := (error_rate_formula snapTwoFour none).1 (by decide)
  simpa [snapTwoFour] using h

/-! ### IP access cache (src/ip_cache.rs) -/

/-- CacheEntry from src/ip_cache.rs; created_at is a Nat time stamp. -/
structure CacheEntry where
  allowed : Bool
  created_at : Nat
deriving DecidableEq, Repr

/-- The IpCache state: the LRU map is a list of key/entry pairs ordered most
recently used first, bounded by capacity. -/
structure IpCache where
  capacity : Nat
  entries : List (IpAddr × CacheEntry)
  ttl : Nat
deriving DecidableEq, Repr

/-- IpCache::new: NonZeroUsize::new(capacity).unwrap_or(1) clamps a zero
capacity to 1. -/
def IpCache.new (capacity ttl : Nat) : IpCache :=
  { capacity := max capacity 1, entries := [], ttl := ttl }

/-- Plain lookup in the LRU list (no recency side effect). -/
def lruLookup (entries : List (IpAddr × CacheEntry)) (ip : IpAddr) : Option CacheEntry :=
  (entries.find? (fun p => p.1 == ip)).map (·.2)

/-- LruCache::get: return the entry for the key and promote it to the
most-recently-used position. -/
def IpCache.get (c : IpCache) (ip : IpAddr) : Option CacheEntry × IpCache :=
  match c.entries.find? (fun p => p.1 == ip) with
  | none => (none, c)
  | some p => (some p.2, { c with entries := p :: c.entries.eraseP (fun q => q.1 == ip) })

/-- LruCache::pop: remove the entry for the key. -/
def IpCache.pop (c : IpCache) (ip : IpAddr) : IpCache :=
  { c with entries := c.entries.eraseP (fun q => q.1 == ip) }

/-- LruCache::put: insert at the most-recently-used position, replacing any
entry under the same key, and evict the least-recently-used entry when the
cache exceeds capacity. -/
def IpCache.put (c : IpCache) (ip : IpAddr) (e : CacheEntry) : IpCache :=
  let es := (ip, e) :: c.entries.eraseP (fun q => q.1 == ip)
  { c with entries := if c.capacity < es.length then es.dropLast else es }

/-- Result of one check_ip call: the decision, the new cache state, and how
many times the checker predicate was invoked. -/
structure CheckOutcome where
  allowed : Bool
  cache : IpCache
  checker_calls : Nat
deriving Repr

/-- IpCache::check_ip from src/ip_cache.rs lines 29-58: consult the cache
(get promotes recency); a non-expired entry answers directly; an expired
entry is popped; on a miss or after expiry the checker runs once and the
result is cached with the current time stamp. -/
def IpCache.check_ip (c : IpCache) (ip : IpAddr) (checker : IpAddr → Bool) (now : Nat) :
    CheckOutcome :=
  match c.get ip with
  | (some entry, c1) =>
    if now - entry.created_at ≤ c.ttl then
      { allowed := entry.allowed, cache := c1, checker_calls := 0 }
    else
      let c2 := c1.pop ip
      let allowed := checker ip
      { allowed := allowed
        cache := c2.put ip { allowed := allowed, created_at := now }
        checker_calls := 1 }
  | (none, c1) =>
    let allowed := checker ip
    { allowed := allowed
      cache := c1.put ip { allowed := allowed, created_at := now }
      checker_calls := 1 }

theorem find?_head_pair (ip : IpAddr) (e : CacheEntry) (l : List (IpAddr × CacheEntry)) :
    (List.find? (fun p => p.1 == ip) ((ip, e) :: l)).map (·.2) = some e := by
  rw [List.find?_cons_of_pos]
  · rfl
  · simp

theorem lruLookup_put_self (c : IpCache) (ip : IpAddr) (e : CacheEntry)
    (hcap : 1 ≤ c.capacity) :
    lruLookup (c.put ip e).entries ip = some e := by
  simp only [IpCache.put, lruLookup]
  generalize c.entries.eraseP (fun q => q.1 == ip) = rest
  split_ifs with h
  · cases rest with
    | nil =>
      simp at h
      omega
    | cons b bs =>
      simp only [List.dropLast]
      exact find?_head_pair ip e _
  · exact find?_head_pair ip e rest

/-- C9: check_ip answers from the cache without invoking the checker exactly
when a non-expired entry (age at most TTL) exists for the IP; otherwise it
invokes the checker once, caches the fresh decision with the current time
stamp, and returns it.  In particular no entry older than TTL is ever used
to answer a check. -/
theorem check_ip_spec (c : IpCache) (ip : IpAddr) (checker : IpAddr → Bool) (now : Nat)
    (hcap : 1 ≤ c.capacity) :
    (∀ e, lruLookup c.entries ip = some e → now - e.created_at ≤ c.ttl →
      (c.check_ip ip checker now).allowed = e.allowed ∧
      (c.check_ip ip checker now).checker_calls = 0) ∧
    ((lruLookup c.entries ip = none ∨
      (∃ e, lruLookup c.entries ip = some e ∧ c.ttl < now - e.created_at)) →
      (c.check_ip ip checker now).checker_calls = 1 ∧
      (c.check_ip ip checker now).allowed = checker ip ∧
      lruLookup (c.check_ip ip checker now).cache.entries ip =
        some { allowed := checker ip, created_at := now }) := by
  constructor
  · intro e he hfresh
    cases hfind : c.entries.find? (fun p => p.1 == ip) with
    | none => simp [lruLookup, hfind] at he
    | some p =>
      have hpe : p.2 = e := by
        simpa [lruLookup, hfind] using he
      simp only [IpCache.check_ip, IpCache.get, hfind, hpe]
      rw [if_pos hfresh]
      exact ⟨rfl, rfl⟩
  · intro hmiss
    cases hfind : c.entries.find? (fun p => p.1 == ip) with
    | none =>
      simp only [IpCache.check_ip, IpCache.get, hfind]
      refine ⟨trivial, trivial, ?_⟩
      exact lruLookup_put_self _ ip _ hcap
    | some p =>
      have hstale : c.ttl < now - p.2.created_at := by
        rcases hmiss with hm | ⟨e, he, hst⟩
        · simp [lruLookup, hfind] at hm
        · have : p.2 = e := by simpa [lruLookup, hfind] using he
          exact this ▸ hst
      simp only [IpCache.check_ip, IpCache.get, hfind]
      rw [if_neg (by omega)]
      refine ⟨rfl, rfl, ?_⟩
      exact lruLookup_put_self _ ip _ hcap

/-- Witness for C9: a fresh cache misses, invokes the checker once and caches
the decision with the current time stamp. -/
theorem check_ip_spec_witness :
    ((IpCache.new 10000 300).check_ip (.v4 10 0 0 1) (fun _ => true) 50).checker_calls = 1 ∧
    ((IpCache.new 10000 300).check_ip (.v4 10 0 0 1) (fun _ => true) 50).allowed = true ∧
    lruLookup ((IpCache.new 10000 300).check_ip (.v4 10 0 0 1) (fun _ => true) 50).cache.entries
        (.v4 10 0 0 1) = some { allowed := true, created_at := 50 } := by
  exact (check_ip_spec (IpCache.new 10000 300) (.v4 10 0 0 1) (fun _ => true) 50
    (by norm_num [IpCache.new])).2 (Or.inl rfl)

/-! ### Buffer pool (src/buffer_pool.rs) -/

/-- A BytesMut buffer modelled by its byte contents; BytesMut::clear empties
it and BytesMut::with_capacity allocates an empty one. -/
abbrev Buffer := List Nat

/-- BufferPool from src/buffer_pool.rs.  The semaphore admission counter is a
concurrency device and carries no data; it is not part of the state here. -/
structure BufferPool where
  small_buffers : List Buffer
  medium_buffers : List Buffer
  large_buffers : List Buffer
  max_pool_size : Nat
deriving DecidableEq, Repr

/-- BufferPool::new. -/
def BufferPool.new (max_pool_size : Nat) : BufferPool :=
  { small_buffers := [], medium_buffers := [], large_buffers := [],
    max_pool_size := max_pool_size }

/-- BufferPool::get_buffer: pop the front of the tier queue or allocate a
fresh (empty) buffer. -/
def getBufferQ (q : List Buffer) : Buffer × List Buffer :=
  match q with
  | [] => ([], [])
  | b :: rest => (b, rest)

/-- BufferPool::acquire (minus the semaphore wait): pick the tier by the size
hint and take a buffer from it. -/
def BufferPool.acquire (p : BufferPool) (size : Nat) : Buffer × BufferPool :=
  if size ≤ 1024 then
    let r := getBufferQ p.small_buffers
    (r.1, { p with small_buffers := r.2 })
  else if size ≤ 8192 then
    let r := getBufferQ p.medium_buffers
    (r.1, { p with medium_buffers := r.2 })
  else
    let r := getBufferQ p.large_buffers
    (r.1, { p with large_buffers := r.2 })

/-- BufferPool::return_buffer from src/buffer_pool.rs lines 60-73: clear the
buffer, pick the tier by the size hint, re-enqueue only while the tier holds
fewer than max_pool_size buffers, otherwise drop it. -/
def BufferPool.return_buffer (p : BufferPool) (buffer : Buffer) (size_hint : Nat) :
    BufferPool :=
  let cleared : Buffer := []
  if size_hint ≤ 1024 then
    { p with small_buffers :=
        if p.small_buffers.length < p.max_pool_size then p.small_buffers ++ [cleared]
        else p.small_buffers }
  else if size_hint ≤ 8192 then
    { p with medium_buffers :=
        if p.medium_buffers.length < p.max_pool_size then p.medium_buffers ++ [cleared]
        else p.medium_buffers }
  else
    { p with large_buffers :=
        if p.large_buffers.length < p.max_pool_size then p.large_buffers ++ [cleared]
        else p.large_buffers }

/-- The tier queue return_buffer routes a size hint to. -/
def tierQueue (p : BufferPool) (size_hint : Nat) : List Buffer :=
  if size_hint ≤ 1024 then p.small_buffers
  else if size_hint ≤ 8192 then p.medium_buffers
  else p.large_buffers

/-- Pool invariant: every retained buffer is empty and every tier holds at
most max_pool_size buffers. -/
def PoolInv (p : BufferPool) : Prop :=
  (∀ b ∈ p.small_buffers, b = []) ∧ (∀ b ∈ p.medium_buffers, b = []) ∧
  (∀ b ∈ p.large_buffers, b = []) ∧
  p.small_buffers.length ≤ p.max_pool_size ∧
  p.medium_buffers.length ≤ p.max_pool_size ∧
  p.large_buffers.length ≤ p.max_pool_size

theorem pushQ_inv (q : List Buffer) (m : Nat)
    (hq : ∀ x ∈ q, x = ([] : Buffer)) (hl : q.length ≤ m) :
    (∀ x ∈ (if q.length < m then q ++ [[]] else q), x = ([] : Buffer)) ∧
    (if q.length < m then q ++ [[]] else q).length ≤ m := by
  split_ifs with h
  · constructor
    · intro x hx
      rcases List.mem_append.mp hx with hx | hx
      · exact hq x hx
      · simpa using hx
    · simpa using h
  · exact ⟨hq, hl⟩

theorem popQ_inv (q : List Buffer) (m : Nat)
    (hq : ∀ x ∈ q, x = ([] : Buffer)) (hl : q.length ≤ m) :
    (∀ x ∈ (getBufferQ q).2, x = ([] : Buffer)) ∧ (getBufferQ q).2.length ≤ m := by
  cases q with
  | nil => simp [getBufferQ]
  | cons b rest =>
    refine ⟨fun x hx => hq x (List.mem_cons_of_mem _ hx), ?_⟩
    simp only [getBufferQ]
    simp only [List.length_cons] at hl
    omega

/-- C8: return_buffer re-enqueues a cleared (empty) buffer into the tier of
the size hint exactly when that tier holds fewer than max_pool_size buffers,
and both return_buffer and acquire preserve the pool invariant that all
retained buffers are empty and no tier exceeds max_pool_size. -/
theorem buffer_pool_return_spec (p : BufferPool) (b : Buffer) (size_hint : Nat)
    (h : PoolInv p) :
    tierQueue (p.return_buffer b size_hint) size_hint =
      (if (tierQueue p size_hint).length < p.max_pool_size
       then tierQueue p size_hint ++ [[]] else tierQueue p size_hint) ∧
    PoolInv (p.return_buffer b size_hint) ∧
    (∀ size, PoolInv (p.acquire size).2) := by
  obtain ⟨hs, hm, hl, hsl, hml, hll⟩ := h
  refine ⟨?_, ?_, ?_⟩
  · by_cases h1 : size_hint ≤ 1024
    · simp [BufferPool.return_buffer, tierQueue, h1]
    · by_cases h2 : size_hint ≤ 8192
      · simp [BufferPool.return_buffer, tierQueue, h1, h2]
      · simp [BufferPool.return_buffer, tierQueue, h1, h2]
  · by_cases h1 : size_hint ≤ 1024
    · have := pushQ_inv p.small_buffers p.max_pool_size hs hsl
      simp only [BufferPool.return_buffer, if_pos h1]
      exact ⟨this.1, hm, hl, this.2, hml, hll⟩
    · by_cases h2 : size_hint ≤ 8192
      · have := pushQ_inv p.medium_buffers p.max_pool_size hm hml
        simp only [BufferPool.return_buffer, if_neg h1, if_pos h2]
        exact ⟨hs, this.1, hl, hsl, this.2, hll⟩
      · have := pushQ_inv p.large_buffers p.max_pool_size hl hll
        simp only [BufferPool.return_buffer, if_neg h1, if_neg h2]
        exact ⟨hs, hm, this.1, hsl, hml, this.2⟩
  · intro size
    by_cases h1 : size ≤ 1024
    · have := popQ_inv p.small_buffers p.max_pool_size hs hsl
      simp only [BufferPool.acquire, if_pos h1]
      exact ⟨this.1, hm, hl, this.2, hml, hll⟩
    · by_cases h2 : size ≤ 8192
      · have := popQ_inv p.medium_buffers p.max_pool_size hm hml
        simp only [BufferPool.acquire, if_neg h1, if_pos h2]
        exact ⟨hs, this.1, hl, hsl, this.2, hll⟩
      · have := popQ_inv p.large_buffers p.max_pool_size hl hll
        simp only [BufferPool.acquire, if_neg h1, if_neg h2]
        exact ⟨hs, hm, this.1, hsl, hml, this.2⟩

/-- Witness for C8: returning a dirty two-byte buffer with a small size hint
to a fresh pool enqueues one cleared buffer into the small tier. -/
theorem buffer_pool_return_spec_witness :
    tierQueue ((BufferPool.new 1000).return_buffer [7, 7] 100) 100 = [[]] := by
  have h := buffer_pool_return_spec (BufferPool.new 1000) [7, 7] 100
    (by refine ⟨?_, ?_, ?_, ?_, ?_, ?_⟩ <;> simp [BufferPool.new])
  rw [h.1]
  simp [tierQueue, BufferPool.new]

/-! ### Instances (src/instance.rs) -/

/-- InstanceStatus from src/instance.rs. -/
inductive InstanceStatus where
  | Stopped
  | Running
  | Error
  | Starting
  | Stopping
deriving DecidableEq, Repr

/-- ProxyInstance from src/instance.rs.  Uuid is modelled as Nat; the shared
metrics counter block (Arc of InstanceMetrics) lives outside the definition
and is modelled separately by CountersSnapshot. -/
structure ProxyInstance where
  id : Nat
  name : String
  config : Config
  status : InstanceStatus
  created_at : Nat
  started_at : Option Nat
  auto_start : Bool
deriving DecidableEq, Repr

/-- ProxyInstance::start. -/
def ProxyInstance.start (i : ProxyInstance) (now : Nat) : ProxyInstance :=
  { i with status := .Starting, started_at := some now }

/-- ProxyInstance::set_running. -/
def ProxyInstance.set_running (i : ProxyInstance) : ProxyInstance :=
  { i with status := .Running }

/-- ProxyInstance::stop. -/
def ProxyInstance.stop (i : ProxyInstance) : ProxyInstance :=
  { i with status := .Stopping, started_at := none }

/-- ProxyInstance::set_stopped. -/
def ProxyInstance.set_stopped (i : ProxyInstance) : ProxyInstance :=
  { i with status := .Stopped }

/-- UpdateInstanceRequest from src/instance.rs lines 203-216. -/
structure UpdateInstanceRequest where
  name : Option String
  listen_ip : Option IpAddr
  listen_port : Option Nat
  dst_ip : Option IpAddr
  dst_port : Option Nat
  protocol : Option Protocol
  auto_start : Option Bool
  allow_list : Option (List IpAddr)
  deny_list : Option (List IpAddr)
  connect_timeout_secs : Option Nat
  idle_timeout_secs : Option Nat
  log_level : Option LogLevel
deriving DecidableEq, Repr

/-- Step of apply_to for the name field. -/
def applyName (r : UpdateInstanceRequest) (i : ProxyInstance) : ProxyInstance :=
  match r.name with
  | some n => { i with name := n }
  | none => i

/-- Step of apply_to for listen_ip. -/
def applyListenIp (r : UpdateInstanceRequest) (i : ProxyInstance) : ProxyInstance :=
  match r.listen_ip with
  | some v => { i with config := { i.config with proxy := { i.config.proxy with listen_ip := v } } }
  | none => i

/-- Step of apply_to for listen_port. -/
def applyListenPort (r : UpdateInstanceRequest) (i : ProxyInstance) : ProxyInstance :=
  match r.listen_port with
  | some v => { i with config := { i.config with proxy := { i.config.proxy with listen_port := v } } }
  | none => i

/-- Step of apply_to for dst_ip. -/
def applyDstIp (r : UpdateInstanceRequest) (i : ProxyInstance) : ProxyInstance :=
  match r.dst_ip with
  | some v => { i with config := { i.config with proxy := { i.config.proxy with dst_ip := v } } }
  | none => i

/-- Step of apply_to for dst_port. -/
def applyDstPort (r : UpdateInstanceRequest) (i : ProxyInstance) : ProxyInstance :=
  match r.dst_port with
  | some v => { i with config := { i.config with proxy := { i.config.proxy with dst_port := v } } }
  | none => i

/-- Step of apply_to for protocol. -/
def applyProtocol (r : UpdateInstanceRequest) (i : ProxyInstance) : ProxyInstance :=
  match r.protocol with
  | some v => { i with config := { i.config with proxy := { i.config.proxy with protocol := v } } }
  | none => i

/-- Step of apply_to for auto_start. -/
def applyAutoStart (r : UpdateInstanceRequest) (i : ProxyInstance) : ProxyInstance :=
  match r.auto_start with
  | some v => { i with auto_start := v }
  | none => i

/-- Step of apply_to for the ip_filter (src/instance.rs lines 240-245): if
either list is present in the patch the whole filter is replaced by one
holding exactly the patch's two options. -/
def applyFilter (r : UpdateInstanceRequest) (i : ProxyInstance) : ProxyInstance :=
  if r.allow_list.isSome || r.deny_list.isSome then
    { i with config := { i.config with
        ip_filter := some { allow_list := r.allow_list, deny_list := r.deny_list } } }
  else i

/-- Step of apply_to for connect_timeout_secs. -/
def applyConnectTimeout (r : UpdateInstanceRequest) (i : ProxyInstance) : ProxyInstance :=
  match r.connect_timeout_secs with
  | some v => { i with config := { i.config with proxy := { i.config.proxy with connect_timeout_secs := v } } }
  | none => i

/-- Step of apply_to for idle_timeout_secs. -/
def applyIdleTimeout (r : UpdateInstanceRequest) (i : ProxyInstance) : ProxyInstance :=
  match r.idle_timeout_secs with
  | some v => { i with config := { i.config with proxy := { i.config.proxy with idle_timeout_secs := v } } }
  | none => i

/-- Step of apply_to for log_level. -/
def applyLogLevel (r : UpdateInstanceRequest) (i : ProxyInstance) : ProxyInstance :=
  match r.log_level with
  | some v => { i with config := { i.config with proxy := { i.config.proxy with log_level := v } } }
  | none => i

/-- UpdateInstanceRequest::apply_to from src/instance.rs lines 217-255: the
field patches run in source order. -/
def UpdateInstanceRequest.apply_to (r : UpdateInstanceRequest) (i : ProxyInstance) :
    ProxyInstance :=
  applyLogLevel r (applyIdleTimeout r (applyConnectTimeout r (applyFilter r
    (applyAutoStart r (applyProtocol r (applyDstPort r (applyDstIp r
      (applyListenPort r (applyListenIp r (applyName r i))))))))))

theorem applyName_filter (r : UpdateInstanceRequest) (i : ProxyInstance) :
    (applyName r i).config.ip_filter = i.config.ip_filter := by
  cases h : r.name <;> simp [applyName, h]

theorem applyListenIp_filter (r : UpdateInstanceRequest) (i : ProxyInstance) :
    (applyListenIp r i).config.ip_filter = i.config.ip_filter := by
  cases h : r.listen_ip <;> simp [applyListenIp, h]

theorem applyListenPort_filter (r : UpdateInstanceRequest) (i : ProxyInstance) :
    (applyListenPort r i).config.ip_filter = i.config.ip_filter := by
  cases h : r.listen_port <;> simp [applyListenPort, h]

theorem applyDstIp_filter (r : UpdateInstanceRequest) (i : ProxyInstance) :
    (applyDstIp r i).config.ip_filter = i.config.ip_filter := by
  cases h : r.dst_ip <;> simp [applyDstIp, h]

theorem applyDstPort_filter (r : UpdateInstanceRequest) (i : ProxyInstance) :
    (applyDstPort r i).config.ip_filter = i.config.ip_filter := by
  cases h : r.dst_port <;> simp [applyDstPort, h]

theorem applyProtocol_filter (r : UpdateInstanceRequest) (i : ProxyInstance) :
    (applyProtocol r i).config.ip_filter = i.config.ip_filter := by
  cases h : r.protocol <;> simp [applyProtocol, h]

theorem applyAutoStart_filter (r : UpdateInstanceRequest) (i : ProxyInstance) :
    (applyAutoStart r i).config.ip_filter = i.config.ip_filter := by
  cases h : r.auto_start <;> simp [applyAutoStart, h]

theorem applyConnectTimeout_filter (r : UpdateInstanceRequest) (i : ProxyInstance) :
    (applyConnectTimeout r i).config.ip_filter = i.config.ip_filter := by
  cases h : r.connect_timeout_secs <;> simp [applyConnectTimeout, h]

theorem applyIdleTimeout_filter (r : UpdateInstanceRequest) (i : ProxyInstance) :
    (applyIdleTimeout r i).config.ip_filter = i.config.ip_filter := by
  cases h : r.idle_timeout_secs <;> simp [applyIdleTimeout, h]

theorem applyLogLevel_filter (r : UpdateInstanceRequest) (i : ProxyInstance) :
    (applyLogLevel r i).config.ip_filter = i.config.ip_filter := by
  cases h : r.log_level <;> simp [applyLogLevel, h]

/-- C10: apply_to replaces the whole ip_filter whenever either list is
present in the patch — the installed filter holds exactly the patch's
allow_list and deny_list options, so a patch setting only one list discards
any previously configured other list — and leaves the filter unchanged when
neither list is present. -/
theorem apply_to_replaces_ip_filter (r : UpdateInstanceRequest) (i : ProxyInstance) :
    (r.allow_list.isSome = true ∨ r.deny_list.isSome = true →
      (r.apply_to i).config.ip_filter =
        some { allow_list := r.allow_list, deny_list := r.deny_list }) ∧
    (r.allow_list = none → r.deny_list = none →
      (r.apply_to i).config.ip_filter = i.config.ip_filter) := by
  constructor
  · intro hsome
    unfold UpdateInstanceRequest.apply_to
    rw [applyLogLevel_filter, applyIdleTimeout_filter, applyConnectTimeout_filter]
    unfold applyFilter
    rw [if_pos (by rcases hsome with h | h <;> simp [h])]
  · intro ha hd
    unfold UpdateInstanceRequest.apply_to
    rw [applyLogLevel_filter, applyIdleTimeout_filter, applyConnectTimeout_filter]
    unfold applyFilter
    rw [if_neg (by simp [ha, hd])]
    rw [applyAutoStart_filter, applyProtocol_filter, applyDstPort_filter,
      applyDstIp_filter, applyListenPort_filter, applyListenIp_filter, applyName_filter]

/-- Base proxy settings shared by the demonstration instances. -/
def proxyDemo : ProxyConfig :=
  { listen_ip := .v4 127 0 0 1, listen_port := 8080,
    dst_ip := .v4 192 168 1 100, dst_port := 80,
    protocol := .Tcp, connect_timeout_secs := 30,
    idle_timeout_secs := 300, log_level := .Info }

/-- A stored instance that carries a deny-list filter. -/
def instDeny : ProxyInstance :=
  { id := 2, name := "deny-demo",
    config := { proxy := proxyDemo,
                ip_filter := some { allow_list := none,
                                    deny_list := some [.v4 192 168 1 50] } },
    status := .Stopped, created_at := 0, started_at := none, auto_start := false }

/-- A patch that sets only the allow-list. -/
def patchAllowOnly : UpdateInstanceRequest :=
  { name := none, listen_ip := none, listen_port := none, dst_ip := none,
    dst_port := none, protocol := none, auto_start := none,
    allow_list := some [.v4 10 0 0 1], deny_list := none,
    connect_timeout_secs := none, idle_timeout_secs := none, log_level := none }

/-- Witness for C10: patching only the allow-list onto an instance with a
deny-list filter installs a filter whose deny_list is None, discarding the
previously configured deny-list. -/
theorem apply_to_replaces_ip_filter_witness :
    (patchAllowOnly.apply_to instDeny).config.ip_filter =
      some { allow_list := some [.v4 10 0 0 1], deny_list := none } ∧
    instDeny.config.ip_filter =
      some { allow_list := none, deny_list := some [.v4 192 168 1 50] } := by
  refine ⟨?_, rfl⟩
  exact (apply_to_replaces_ip_filter patchAllowOnly instDeny).1 (Or.inl (by decide))

/-! ### UDP session table (src/buffer_pool.rs lines 133-292) -/

/-- std::net::SocketAddr: an IP address and a port. -/
abbrev SockAddr := IpAddr × Nat

/-- UdpSession from src/buffer_pool.rs; the bound upstream socket is
identified by a Nat handle. -/
structure UdpSession where
  client_socket : Nat
  local_addr : SockAddr
  last_activity : Nat
deriving DecidableEq, Repr

/-- UdpSessionManager state (the background reaper task runs separately and
is not part of a single call's semantics). -/
structure UdpSessionManager where
  sessions : List (SockAddr × UdpSession)
  session_timeout : Nat
  cleanup_interval : Nat
deriving DecidableEq, Repr

/-- UdpSessionManager::new. -/
def UdpSessionManager.new (session_timeout cleanup_interval : Nat) : UdpSessionManager :=
  { sessions := [], session_timeout := session_timeout, cleanup_interval := cleanup_interval }

/-- UdpSessionManager::get_or_create_session from src/buffer_pool.rs lines
243-269.  An existing session has its activity refreshed and None is
returned so the caller does not spawn a second response pump; otherwise a
fresh ephemeral upstream socket is bound — bindOutcome carries its handle
and local address, or is none when the bind fails — and the new session is
inserted and returned.  The same None signals both cases. -/
def UdpSessionManager.get_or_create_session (m : UdpSessionManager) (peer_addr : SockAddr)
    (now : Nat) (bindOutcome : Option (Nat × SockAddr)) :
    Option UdpSession × UdpSessionManager :=
  match m.sessions.find? (fun p => decide (p.1 = peer_addr)) with
  | some _ =>
    let refreshed := m.sessions.map
      (fun q => if q.1 = peer_addr then (q.1, { q.2 with last_activity := now }) else q)
    (none, { m with sessions := refreshed })
  | none =>
    match bindOutcome with
    | some (sock, laddr) =>
      let session : UdpSession :=
        { client_socket := sock, local_addr := laddr, last_activity := now }
      (some session, { m with sessions := (peer_addr, session) :: m.sessions })
    | none => (none, m)

/-- Plain lookup in the session table. -/
def sessionLookup (sessions : List (SockAddr × UdpSession)) (peer : SockAddr) :
    Option UdpSession :=
  (sessions.find? (fun p => decide (p.1 = peer))).map (·.2)

/-- UdpSessionManager::remove_session from src/buffer_pool.rs lines 270-273. -/
def UdpSessionManager.remove_session (m : UdpSessionManager) (peer_addr : SockAddr) :
    UdpSessionManager :=
  { m with sessions := m.sessions.eraseP (fun p => decide (p.1 = peer_addr)) }

/-! ### UDP forwarder (src/udp_proxy.rs) -/

/-- u64 saturating add performed by InstanceMetrics::add_bytes_received and
add_bytes_sent. -/
def satAdd64 (a b : Nat) : Nat := min (a + b) (2 ^ 64 - 1)

/-- The state touched by one call of handle_udp_packet_with_token: the
session table, the instance's bytes_received counter, the datagrams the call
sends upstream through the listen socket (with their destination), and the
peers for which a response pump task has been spawned. -/
structure UdpForwardState where
  sessions : UdpSessionManager
  bytes_received : Nat
  sent_upstream : List (List Nat × SockAddr)
  spawned_pumps : List SockAddr
deriving DecidableEq, Repr

/-- UdpProxy::handle_udp_packet_with_token from src/udp_proxy.rs lines
132-208: on Some session a response pump is spawned, the datagram is sent
via the listen socket to (dst_ip, dst_port) and its length is added
(saturating) to bytes_received; on None — which get_or_create_session
returns both for an existing session and for a bind failure — the function
returns an error without sending anything or touching the counter. -/
def handle_udp_packet_with_token (config : Config) (data : List Nat) (peer_addr : SockAddr)
    (now : Nat) (bindOutcome : Option (Nat × SockAddr)) (st : UdpForwardState) :
    Except String Unit × UdpForwardState :=
  let dst_addr : SockAddr := (config.proxy.dst_ip, config.proxy.dst_port)
  match st.sessions.get_or_create_session peer_addr now bindOutcome with
  | (some _, sm) =>
    let st1 := { st with sessions := sm, spawned_pumps := st.spawned_pumps ++ [peer_addr] }
    let st2 := { st1 with sent_upstream := st1.sent_upstream ++ [(data, dst_addr)] }
    let st3 :=
      if data.length > 0 then
        { st2 with bytes_received := satAdd64 st2.bytes_received data.length }
      else st2
    (.ok (), st3)
  | (none, sm) =>
    (.error "Failed to create UDP session", { st with sessions := sm })

/-- A UDP configuration for the demonstration states. -/
def cfgUdp : Config :=
  { proxy :=
      { listen_ip := .v4 127 0 0 1, listen_port := 9000,
        dst_ip := .v4 192 168 1 100, dst_port := 9001,
        protocol := .Udp, connect_timeout_secs := 30,
        idle_timeout_secs := 300, log_level := .Info },
    ip_filter := none }

/-- Client address used in the UDP demonstrations. -/
def peer0 : SockAddr := (.v4 10 0 0 5, 4000)

/-- An established session for peer0. -/
def sess0 : UdpSession :=
  { client_socket := 11, local_addr := (.v4 0 0 0 0, 50000), last_activity := 0 }

/-- Forwarder state in which peer0 already has a session and pump. -/
def stWithSession : UdpForwardState :=
  { sessions := { sessions := [(peer0, sess0)], session_timeout := 300, cleanup_interval := 60 },
    bytes_received := 0, sent_upstream := [], spawned_pumps := [peer0] }

/-- C1: evaluating the source at the failing input — a second datagram from a
client address that already has a session.  get_or_create_session returns
the existing-session sentinel None, and handle_udp_packet_with_token treats
that None as "failed to create session": it returns an error, sends nothing
upstream, and leaves bytes_received untouched, contradicting the claimed
unconditional forwarding. -/
theorem udp_existing_session_drops_datagram :
    (handle_udp_packet_with_token cfgUdp [1, 2, 3] peer0 7
        (some (12, (.v4 0 0 0 0, 50001))) stWithSession).1
      = .error "Failed to create UDP session" ∧
    (handle_udp_packet_with_token cfgUdp [1, 2, 3] peer0 7
        (some (12, (.v4 0 0 0 0, 50001))) stWithSession).2.sent_upstream = [] ∧
    (handle_udp_packet_with_token cfgUdp [1, 2, 3] peer0 7
        (some (12, (.v4 0 0 0 0, 50001))) stWithSession).2.bytes_received = 0 ∧
    (handle_udp_packet_with_token cfgUdp [1, 2, 3] peer0 7
        (some (12, (.v4 0 0 0 0, 50001))) stWithSession).2.spawned_pumps = [peer0] ∧
    (sessionLookup (handle_udp_packet_with_token cfgUdp [1, 2, 3] peer0 7
        (some (12, (.v4 0 0 0 0, 50001))) stWithSession).2.sessions.sessions peer0).map
        (·.last_activity) = some 7 := by
  refine ⟨rfl, rfl, rfl, rfl, by decide⟩

/-! ### Instance supervisor (src/instance_manager.rs) -/

/-- The runtime handle kept in running_instances: whether TCP and UDP
forwarder tasks were spawned and whether the cancellation token has fired. -/
structure InstanceHandle where
  has_tcp : Bool
  has_udp : Bool
  cancelled : Bool
deriving DecidableEq, Repr

/-- The InstanceService maps guarded by its two RwLocks: instance definitions
and runtime handles, both keyed by the instance id.  Storage and the metrics
manager are external collaborators whose errors are only logged. -/
structure ServiceState where
  instances : List (Nat × ProxyInstance)
  running_instances : List (Nat × InstanceHandle)
deriving DecidableEq, Repr

/-- HashMap::get on an association list. -/
def lookupA {α : Type} (l : List (Nat × α)) (id : Nat) : Option α :=
  (l.find? (fun p => p.1 == id)).map (·.2)

/-- In-place mutation of the entry for a present key. -/
def updateA {α : Type} (l : List (Nat × α)) (id : Nat) (v : α) : List (Nat × α) :=
  l.map (fun p => if p.1 == id then (id, v) else p)

/-- HashMap::insert: replace the entry if present, otherwise add it. -/
def insertA {α : Type} (l : List (Nat × α)) (id : Nat) (v : α) : List (Nat × α) :=
  if (l.find? (fun p => p.1 == id)).isSome then updateA l id v else (id, v) :: l

/-- HashMap::remove. -/
def eraseA {α : Type} (l : List (Nat × α)) (id : Nat) : List (Nat × α) :=
  l.eraseP (fun p => p.1 == id)

/-- TcpProxy::run_with_token reduced to its bind step (src/tcp_proxy.rs lines
45-50): the task fails with a bind error or, once bound, terminates with Ok
on cancellation. -/
def TcpProxy.run_with_token (bindOk : Bool) : Except String Unit :=
  if bindOk then .ok () else .error "Failed to bind TCP listener"

/-- The task body spawned by start_instance_internal (lines 161-168): an
error from run_with_token is only logged; nothing reaches the supervisor. -/
def spawned_forwarder_outcome (bindOk : Bool) : Unit :=
  match TcpProxy.run_with_token bindOk with
  | .error _ => ()
  | .ok _ => ()

/-- InstanceService::start_instance_internal from src/instance_manager.rs
lines 142-212: missing id reports Ok false; an already Running instance
reports Ok true untouched; otherwise the instance is marked Starting, the
forwarder tasks are spawned according to the protocol, a handle with a fresh
cancellation token is recorded, and the instance is set Running.  The spawn
result — and hence any bind failure — is never inspected. -/
def start_instance_internal (s : ServiceState) (id : Nat) (now : Nat) :
    Except String Bool × ServiceState :=
  match lookupA s.instances id with
  | none => (.ok false, s)
  | some inst =>
    if inst.status = InstanceStatus.Running then (.ok true, s)
    else
      let inst1 := inst.start now
      let has_tcp : Bool :=
        match inst1.config.proxy.protocol with
        | .Tcp | .Both => true
        | .Udp => false
      let has_udp : Bool :=
        match inst1.config.proxy.protocol with
        | .Udp | .Both => true
        | .Tcp => false
      let handle : InstanceHandle :=
        { has_tcp := has_tcp, has_udp := has_udp, cancelled := false }
      let inst2 := inst1.set_running
      (.ok true,
        { instances := updateA s.instances id inst2,
          running_instances := insertA s.running_instances id handle })

/-- start_instance_internal followed by the spawned forwarder task body
observing the bind outcome; the supervisor state never depends on it. -/
def start_instance_with_bind (s : ServiceState) (id now : Nat) (bindOk : Bool) :
    Except String Bool × ServiceState :=
  let taskResult := spawned_forwarder_outcome bindOk
  start_instance_internal s id now

/-- InstanceService::stop_instance_internal from src/instance_manager.rs
lines 218-253: missing id reports Ok false; an instance that is not Running
reports Ok true untouched; otherwise the instance is marked Stopping, the
handle is removed (its token cancelled and, after the 200 ms grace, its
tasks aborted), and the instance is set Stopped. -/
def stop_instance_internal (s : ServiceState) (id : Nat) :
    Except String Bool × ServiceState :=
  match lookupA s.instances id with
  | none => (.ok false, s)
  | some inst =>
    if inst.status ≠ InstanceStatus.Running then (.ok true, s)
    else
      let inst1 := inst.stop
      let rs := eraseA s.running_instances id
      let inst2 := inst1.set_stopped
      (.ok true, { instances := updateA s.instances id inst2, running_instances := rs })

/-- InstanceService::update_instance from src/instance_manager.rs lines
88-116: the patch is applied to the stored instance in place, the patched
configuration is then validated, and a validation error is returned with the
patched definition still in the map; on success the change is persisted
(errors only logged) and a previously Running instance is stopped and
restarted. -/
def update_instance (s : ServiceState) (id : Nat) (r : UpdateInstanceRequest) (now : Nat) :
    Except String (Option ProxyInstance) × ServiceState :=
  match lookupA s.instances id with
  | none => (.ok none, s)
  | some inst =>
    let was_running : Bool := decide (inst.status = InstanceStatus.Running)
    let inst1 := r.apply_to inst
    let s1 : ServiceState := { s with instances := updateA s.instances id inst1 }
    match inst1.config.validate with
    | .error e => (.error e, s1)
    | .ok _ =>
      if was_running then
        match stop_instance_internal s1 id with
        | (.error e, s2) => (.error e, s2)
        | (.ok _, s2) =>
          match start_instance_internal s2 id now with
          | (.error e, s3) => (.error e, s3)
          | (.ok _, s3) => (.ok (lookupA s3.instances id), s3)
      else
        (.ok (some inst1), s1)

theorem applyName_status (r : UpdateInstanceRequest) (i : ProxyInstance) :
    (applyName r i).status = i.status := by
  cases h : r.name <;> simp [applyName, h]

theorem applyListenIp_status (r : UpdateInstanceRequest) (i : ProxyInstance) :
    (applyListenIp r i).status = i.status := by
  cases h : r.listen_ip <;> simp [applyListenIp, h]

theorem applyListenPort_status (r : UpdateInstanceRequest) (i : ProxyInstance) :
    (applyListenPort r i).status = i.status := by
  cases h : r.listen_port <;> simp [applyListenPort, h]

theorem applyDstIp_status (r : UpdateInstanceRequest) (i : ProxyInstance) :
    (applyDstIp r i).status = i.status := by
  cases h : r.dst_ip <;> simp [applyDstIp, h]

theorem applyDstPort_status (r : UpdateInstanceRequest) (i : ProxyInstance) :
    (applyDstPort r i).status = i.status := by
  cases h : r.dst_port <;> simp [applyDstPort, h]

theorem applyProtocol_status (r : UpdateInstanceRequest) (i : ProxyInstance) :
    (applyProtocol r i).status = i.status := by
  cases h : r.protocol <;> simp [applyProtocol, h]

theorem applyAutoStart_status (r : UpdateInstanceRequest) (i : ProxyInstance) :
    (applyAutoStart r i).status = i.status := by
  cases h : r.auto_start <;> simp [applyAutoStart, h]

theorem applyFilter_status (r : UpdateInstanceRequest) (i : ProxyInstance) :
    (applyFilter r i).status = i.status := by
  unfold applyFilter
  split_ifs <;> rfl

theorem applyConnectTimeout_status (r : UpdateInstanceRequest) (i : ProxyInstance) :
    (applyConnectTimeout r i).status = i.status := by
  cases h : r.connect_timeout_secs <;> simp [applyConnectTimeout, h]

theorem applyIdleTimeout_status (r : UpdateInstanceRequest) (i : ProxyInstance) :
    (applyIdleTimeout r i).status = i.status := by
  cases h : r.idle_timeout_secs <;> simp [applyIdleTimeout, h]

theorem applyLogLevel_status (r : UpdateInstanceRequest) (i : ProxyInstance) :
    (applyLogLevel r i).status = i.status := by
  cases h : r.log_level <;> simp [applyLogLevel, h]

theorem apply_to_status (r : UpdateInstanceRequest) (i : ProxyInstance) :
    (r.apply_to i).status = i.status := by
  unfold UpdateInstanceRequest.apply_to
  rw [applyLogLevel_status, applyIdleTimeout_status, applyConnectTimeout_status,
    applyFilter_status, applyAutoStart_status, applyProtocol_status, applyDstPort_status,
    applyDstIp_status, applyListenPort_status, applyListenIp_status, applyName_status]

theorem lookupA_updateA {α : Type} (l : List (Nat × α)) (id : Nat) (v : α)
    (h : (lookupA l id).isSome = true) :
    lookupA (updateA l id v) id = some v := by
  induction l with
  | nil => simp [lookupA, List.find?] at h
  | cons p rest ih =>
    cases hp : (p.1 == id) with
    | true =>
      simp [lookupA, updateA, List.find?, hp]
    | false =>
      have h' : (lookupA rest id).isSome = true := by
        simpa [lookupA, List.find?, hp] using h
      simpa [lookupA, updateA, List.find?, hp] using ih h'

theorem eraseP_not_found {α : Type} (l : List α) (p : α → Bool)
    (h : l.find? p = none) : l.eraseP p = l := by
  induction l with
  | nil => rfl
  | cons a rest ih =>
    have ha : p a = false := by
      cases hc : p a with
      | false => rfl
      | true => simp [List.find?, hc] at h
    have hr : rest.find? p = none := by simpa [List.find?, ha] using h
    simp [List.eraseP_cons, ha, ih hr]

/-- A stored instance used by the supervisor demonstrations. -/
def instDemo : ProxyInstance :=
  { id := 1, name := "demo",
    config := { proxy := proxyDemo, ip_filter := none },
    status := .Stopped, created_at := 0, started_at := none, auto_start := false }

/-- Supervisor state holding only instDemo, stopped. -/
def stDemo : ServiceState :=
  { instances := [(1, instDemo)], running_instances := [] }

/-- A patch that sets the listen port to 0, which validation rejects. -/
def patchZeroPort : UpdateInstanceRequest :=
  { name := none, listen_ip := none, listen_port := some 0, dst_ip := none,
    dst_port := none, protocol := none, auto_start := none,
    allow_list := none, deny_list := none,
    connect_timeout_secs := none, idle_timeout_secs := none, log_level := none }

/-- C2 counterexample: patching the stored listen port to 0 makes validation
fail and update_instance returns the error, yet the stored definition now
carries listen_port 0 instead of the original 8080 — the patch is retained,
not rolled back, so the update is not atomic. -/
theorem update_failure_retains_patch :
    isOkE (update_instance stDemo 1 patchZeroPort 5).1 = false ∧
    (lookupA (update_instance stDemo 1 patchZeroPort 5).2.instances 1).map
        (fun i => i.config.proxy.listen_port) = some 0 ∧
    (lookupA stDemo.instances 1).map
        (fun i => i.config.proxy.listen_port) = some 8080 ∧
    lookupA (update_instance stDemo 1 patchZeroPort 5).2.instances 1 ≠
      lookupA stDemo.instances 1 := by
  refine ⟨rfl, rfl, rfl, ?_⟩
  intro heq
  have h2 : (lookupA (update_instance stDemo 1 patchZeroPort 5).2.instances 1).map
      (fun i => i.config.proxy.listen_port) = some 0 := rfl
  have h3 : (lookupA stDemo.instances 1).map
      (fun i => i.config.proxy.listen_port) = some 8080 := rfl
  rw [heq, h3] at h2
  exact absurd h2 (by decide)

/-- C2 (amended): when the patched configuration fails validation,
update_instance returns the validation error and does not touch status or
runtime handles, but the registry keeps the patched definition: the stored
instance equals apply_to of the patch, not the original — the update is not
rolled back. -/
theorem update_instance_validation_failure (s : ServiceState) (id : Nat)
    (r : UpdateInstanceRequest) (now : Nat) (inst : ProxyInstance)
    (hfound : lookupA s.instances id = some inst)
    (hbad : isOkE (r.apply_to inst).config.validate = false) :
    isOkE (update_instance s id r now).1 = false ∧
    (update_instance s id r now).2.instances = updateA s.instances id (r.apply_to inst) ∧
    (update_instance s id r now).2.running_instances = s.running_instances ∧
    (r.apply_to inst).status = inst.status := by
  cases hv : (r.apply_to inst).config.validate with
  | ok u =>
    rw [hv] at hbad
    exact absurd hbad (by simp [isOkE])
  | error e =>
    simp only [update_instance, hfound, hv]
    refine ⟨?_, ?_, ?_, apply_to_status r inst⟩ <;> trivial

/-- Witness for C2 (amended) at the concrete demonstration state. -/
theorem update_instance_validation_failure_witness :
    isOkE (update_instance stDemo 1 patchZeroPort 5).1 = false ∧
    (update_instance stDemo 1 patchZeroPort 5).2.running_instances =
      stDemo.running_instances := by
  have h := update_instance_validation_failure stDemo 1 patchZeroPort 5 instDemo rfl
    (by decide)
  exact ⟨h.1, h.2.2.1⟩

/-- C4 counterexample: starting the stopped demonstration instance while its
TCP listener bind fails still reports Ok true and leaves the instance
Running; the bind error inside the spawned task produces no Error status. -/
theorem start_bind_failure_still_running :
    (start_instance_with_bind stDemo 1 5 false).1 = .ok true ∧
    (lookupA (start_instance_with_bind stDemo 1 5 false).2.instances 1).map (·.status)
      = some InstanceStatus.Running ∧
    InstanceStatus.Running ≠ InstanceStatus.Error ∧
    TcpProxy.run_with_token false = .error "Failed to bind TCP listener" := by
  refine ⟨rfl, rfl, by decide, rfl⟩

/-- C4 (amended): the start transition never observes the bind outcome — for
any existing non-running instance, start_instance_with_bind returns Ok true
and records status Running whether the bind succeeds or fails, and the
entire result is identical to the one with a succeeding bind; no transition
to Error exists in the supervisor. -/
theorem start_ignores_bind_outcome (s : ServiceState) (id now : Nat) (bindOk : Bool)
    (inst : ProxyInstance) (hfound : lookupA s.instances id = some inst)
    (hnr : inst.status ≠ InstanceStatus.Running) :
    (start_instance_with_bind s id now bindOk).1 = .ok true ∧
    (lookupA (start_instance_with_bind s id now bindOk).2.instances id).map (·.status)
      = some InstanceStatus.Running ∧
    start_instance_with_bind s id now bindOk = start_instance_with_bind s id now true := by
  have hsome : (lookupA s.instances id).isSome = true := by rw [hfound]; rfl
  refine ⟨?_, ?_, rfl⟩
  · simp only [start_instance_with_bind, start_instance_internal, hfound]
    rw [if_neg hnr]
  · simp only [start_instance_with_bind, start_instance_internal, hfound]
    rw [if_neg hnr]
    have hlu := lookupA_updateA s.instances id ((inst.start now).set_running) hsome
    show (lookupA (updateA s.instances id ((inst.start now).set_running)) id).map (·.status)
      = some InstanceStatus.Running
    rw [hlu]
    rfl

/-- Witness for C4 (amended) at the concrete demonstration state. -/
theorem start_ignores_bind_outcome_witness :
    (start_instance_with_bind stDemo 1 5 false).2 =
      (start_instance_with_bind stDemo 1 5 true).2 := by
  have h := start_ignores_bind_outcome stDemo 1 5 false instDemo rfl (by decide)
  rw [h.2.2]

/-- C7: stop on an existing instance that is not Running is a no-op
returning success (definition, status and runtime handles untouched); start
on an instance already Running is likewise a no-op returning success; and
remove_session on an address with no session leaves the session table
unchanged. -/
theorem lifecycle_noops (s : ServiceState) (id now : Nat)
    (m : UdpSessionManager) (peer : SockAddr) :
    (∀ inst, lookupA s.instances id = some inst → inst.status ≠ InstanceStatus.Running →
      stop_instance_internal s id = (.ok true, s)) ∧
    (∀ inst, lookupA s.instances id = some inst → inst.status = InstanceStatus.Running →
      start_instance_internal s id now = (.ok true, s)) ∧
    (m.sessions.find? (fun p => decide (p.1 = peer)) = none →
      m.remove_session peer = m) := by
  refine ⟨?_, ?_, ?_⟩
  · intro inst hf hnr
    simp only [stop_instance_internal, hf]
    rw [if_pos hnr]
  · intro inst hf hr
    simp only [start_instance_internal, hf]
    rw [if_pos hr]
  · intro hnone
    unfold UdpSessionManager.remove_session
    rw [eraseP_not_found _ _ hnone]

/-- A running instance and the supervisor state holding it. -/
def instRun : ProxyInstance :=
  { instDemo with id := 3, status := .Running }

/-- Supervisor state with instRun registered as running. -/
def stRun : ServiceState :=
  { instances := [(3, instRun)],
    running_instances := [(3, { has_tcp := true, has_udp := false, cancelled := false })] }

/-- Witness for C7 at concrete states: a stopped instance survives stop
unchanged, a running instance survives start unchanged, and removing an
unknown session address leaves a fresh session manager unchanged. -/
theorem lifecycle_noops_witness :
    stop_instance_internal stDemo 1 = (.ok true, stDemo) ∧
    start_instance_internal stRun 3 9 = (.ok true, stRun) ∧
    (UdpSessionManager.new 300 60).remove_session peer0 = UdpSessionManager.new 300 60 := by
  refine ⟨?_, ?_, ?_⟩
  · exact (lifecycle_noops stDemo 1 0 (UdpSessionManager.new 300 60) peer0).1
      instDemo rfl (by decide)
  · exact (lifecycle_noops stRun 3 9 (UdpSessionManager.new 300 60) peer0).2.1
      instRun rfl rfl
  · exact (lifecycle_noops stDemo 1 0 (UdpSessionManager.new 300 60) peer0).2.2 rfl

end VoidProxy
